import Mathlib

/-!
# Verification of the durable state engine of the algorithm platform

This file gives a shallow embedding of the startup reconciliation / backup /
restore engine implemented in `backend/internal/database/sqlite_backup.go`,
`backend/internal/database/sqlite.go` and the GORM versioning plugin, and
proves (or refutes) the frozen specification claims about it.

Modelling conventions:
* Go `int64` counters (versions, record counts) are modelled as `Int`;
  none of the verified properties is sensitive to 64-bit wrap-around.
* Go `time.Time` values are modelled as `Int` instants; `t1.After(t2)`
  is `t1 > t2`.
* Database errors that the code distinguishes ("record not found",
  "no such table") are modelled structurally: a possibly missing table is an
  `Option (List row)`, an empty table is `some []`.
* Fallible operations return `Except String α`; a rolled-back transaction
  leaves the caller's state unchanged.
* Per-row insert failures inside the restore transaction (a `tx.Create`
  error on a malformed row) are modelled by a caller-supplied success
  predicate on rows, mirroring that the engine itself does not decide which
  rows fail.
-/

namespace AlgorithmPlatform

/-- One row of the `database_metadata` ledger table
(`internal/models`, struct `DatabaseMetadata`). -/
structure DatabaseMetadata where
  version : Int
  lastUpdatedAt : Int
  updatedBy : String
  checkpointAt : Int
  recordCount : Int
deriving Repr, DecidableEq

/-- `BackupMetadata` from `sqlite_backup.go`: metadata describing one backup
candidate (or the current database, `Source = "current"`). -/
structure BackupMetadata where
  timestamp : Int
  hash : String
  source : String
  path : String
  version : Int
  recordCount : Int
  lastUpdatedAt : Int
deriving Repr, DecidableEq

/-- A row of the `algorithms` table.  The durability engine never inspects
the payload columns (it only counts rows and moves them wholesale), so the
row is identified by its primary key. -/
structure Algorithm where
  id : String
deriving Repr, DecidableEq

/-- A row of the `versions` table (payload opaque to the engine). -/
structure Version where
  id : String
deriving Repr, DecidableEq

/-- A row of the `jobs` table (payload opaque to the engine). -/
structure Job where
  id : String
deriving Repr, DecidableEq

/-- A row of the `preset_data` table (payload opaque to the engine). -/
structure PresetData where
  id : String
deriving Repr, DecidableEq

/-- The SQLite store as seen by the backup manager.  `none` for the
metadata or algorithms table models a "no such table" error from GORM
(the branches `isTableNotExistError` distinguishes in
`getDatabaseMetadata`); the other managed tables are only ever touched
after migration, so they are plain lists. -/
structure DBState where
  metadataTable : Option (List DatabaseMetadata)
  algorithmsTable : Option (List Algorithm)
  versionsTable : List Version
  jobsTable : List Job
  presetDataTable : List PresetData
deriving Repr, DecidableEq

/-- The parsed structured snapshot document
(`backupData` in `restoreFromBackup` / `BackupToMinIO`). -/
structure BackupData where
  algorithms : List Algorithm
  versions : List Version
  presetData : List PresetData
  jobs : List Job
  metaVersion : Int
  metaRecordCount : Int
  metaLastUpdatedAt : Int
deriving Repr, DecidableEq

/-- `m.db.Order("version DESC").First(&meta)` : the ledger entry with the
largest version (the first such entry when versions tie), `none` when the
table is empty (GORM `ErrRecordNotFound`). -/
def latestLedgerEntry : List DatabaseMetadata → Option DatabaseMetadata
  | [] => none
  | e :: es =>
    match latestLedgerEntry es with
    | none => some e
    | some b => if e.version ≥ b.version then some e else some b

/-- The maximum ledger version, `0` for an empty ledger (a zero-valued
`DatabaseMetadata` struct is used when `First` finds no record). -/
def currentMaxVersion (ledger : List DatabaseMetadata) : Int :=
  match latestLedgerEntry ledger with
  | none => 0
  | some e => e.version

/-- `getDatabaseMetadata` (`sqlite_backup.go:206`): read the newest ledger
entry and the live `algorithms` row count.  Returns `none` exactly where the
Go code returns a non-nil error (the count query fails although a ledger
entry exists); otherwise returns the zero-version defaults for a fresh or
empty store. -/
def getDatabaseMetadata (st : DBState) : Option BackupMetadata :=
  match st.metadataTable.bind latestLedgerEntry with
  | some meta =>
    match st.algorithmsTable with
    | some algs =>
      some { timestamp := 0, hash := "", source := "current", path := ""
             version := meta.version, recordCount := (algs.length : Int)
             lastUpdatedAt := meta.lastUpdatedAt }
    | none => none
  | none =>
    match st.algorithmsTable with
    | some algs =>
      some { timestamp := 0, hash := "", source := "current", path := ""
             version := 0, recordCount := (algs.length : Int), lastUpdatedAt := 0 }
    | none =>
      some { timestamp := 0, hash := "", source := "current", path := ""
             version := 0, recordCount := 0, lastUpdatedAt := 0 }

/-- The strict "is newer than" comparison used on the has-data path of
`LoadFromMinIO` (lines 143-144 and 156-157): higher version wins, tied
versions are broken by a strictly later `last_updated_at`. -/
def lexNewer (v t v' t' : Int) : Prop :=
  v > v' ∨ (v = v' ∧ t > t')

instance (v t v' t' : Int) : Decidable (lexNewer v t v' t') := by
  unfold lexNewer; infer_instance

/-- Accumulated state of the newest-source scan in `LoadFromMinIO`
(lines 133-163): the running `newestSource` / `newestVersion` /
`newestTime` / `newestBackup` variables. -/
structure SelState where
  newestSource : String
  newestVersion : Int
  newestTime : Int
  newestBackup : Option BackupMetadata
deriving Repr, DecidableEq

/-- One `if backup != nil { if backup newer { take it } }` block of the
scan. -/
def considerBackup (name : String) (b? : Option BackupMetadata)
    (s : SelState) : SelState :=
  match b? with
  | none => s
  | some b =>
    if lexNewer b.version b.lastUpdatedAt s.newestVersion s.newestTime then
      { newestSource := name, newestVersion := b.version
        newestTime := b.lastUpdatedAt, newestBackup := some b }
    else s

/-- The full newest-source selection of `LoadFromMinIO` on the
`record_count > 0` path: start from the current database, then consider the
MinIO backup, then the local backup. -/
def selectNewestSource (cur : BackupMetadata)
    (minioB localB : Option BackupMetadata) : SelState :=
  considerBackup "local" localB <| considerBackup "minio" minioB
    { newestSource := "current", newestVersion := cur.version
      newestTime := cur.lastUpdatedAt, newestBackup := none }

/-- Backup choice of `attemptRestore` (lines 315-331): when both a MinIO
and a local backup exist the one with the strictly later file `Timestamp`
wins (ties go to the local backup, since `After` is strict); versions are
not consulted. -/
def pickRestoreBackup (minioB localB : Option BackupMetadata) :
    Option BackupMetadata :=
  match minioB, localB with
  | some m, some l => if m.timestamp > l.timestamp then some m else some l
  | some m, none => some m
  | none, some l => some l
  | none, none => none

/-- The ledger entry that `restoreMetadataFromBackup`
(`sqlite_backup.go:753-764`) creates after a restore: the *backup's*
version, `last_updated_at` and declared `record_count` are copied verbatim
(`updated_by = "backup_restore"`); the record count is not re-counted from
the restored tables. -/
def restoreEntry (backupMeta : BackupMetadata) (now : Int) : DatabaseMetadata :=
  { version := backupMeta.version
    lastUpdatedAt := backupMeta.lastUpdatedAt
    updatedBy := "backup_restore"
    checkpointAt := now
    recordCount := backupMeta.recordCount }

/-- `restoreMetadataFromBackup`: append the restore ledger entry
(`m.db.Create(&newMeta)`). -/
def restoreMetadataFromBackup (backupMeta : BackupMetadata) (now : Int)
    (ledger : List DatabaseMetadata) : List DatabaseMetadata :=
  ledger ++ [restoreEntry backupMeta now]

/-- `restoreFromBackup` (`sqlite_backup.go:535-751`), as a state
transformer.  `fetched` is the result of loading/decoding the backup
document (step 1); `okA` / `okP` say which row inserts succeed inside the
transaction (a failing `tx.Create` on a row is logged and skipped, not
fatal).  The transaction clears and reloads only the `algorithms` and
`preset_data` tables; `versions` and `jobs` are never touched.  After the
commit the verification step only re-counts and logs, and
`restoreMetadataFromBackup` appends the ledger entry (its own failure esp.
a missing ledger table is logged, leaving the ledger unchanged).  An
`.error` result means the transaction rolled back and the caller's store is
unchanged. -/
def restoreFromBackup (okA : Algorithm → Bool) (okP : PresetData → Bool)
    (now : Int) (metadata : BackupMetadata)
    (fetched : Except String BackupData) (st : DBState) :
    Except String DBState :=
  match fetched with
  | .error e => .error e
  | .ok bd =>
    match st.algorithmsTable with
    | none => .error "failed to clear algorithms: no such table: algorithms"
    | some _ =>
      .ok { st with
              algorithmsTable := some (bd.algorithms.filter okA)
              presetDataTable := bd.presetData.filter okP
              metadataTable :=
                st.metadataTable.map (restoreMetadataFromBackup metadata now) }

/-- `attemptRestore` (`sqlite_backup.go:285-353`), the degraded/empty-store
restore path: check the bucket, pick the backup with the later file
timestamp, and run the restore racing the 5-minute context deadline
(`finishesInTime` says whether `restoreChan` fires before `ctx.Done()`);
on timeout it returns the error `"restore timeout exceeded 5 minutes"`
with the store unchanged. -/
def attemptRestore (bucketExists : Bool)
    (minioB localB : Option BackupMetadata)
    (fetch : BackupMetadata → Except String BackupData)
    (okA : Algorithm → Bool) (okP : PresetData → Bool) (now : Int)
    (finishesInTime : Bool) (st : DBState) : Except String DBState :=
  if bucketExists = false then .error "no backup available"
  else
    match pickRestoreBackup minioB localB with
    | none => .error "no backup available"
    | some b =>
      if finishesInTime then restoreFromBackup okA okP now b (fetch b) st
      else .error "restore timeout exceeded 5 minutes"

/-- `LoadFromMinIO` (`sqlite_backup.go:68-203`), the one-shot startup
reconciliation, as a function of the environment: the backup candidates
(`minioB`, `localB` as read by `getMinIOBackupMetadata` /
`getLocalBackupMetadata`), the fetched backup contents, which row inserts
succeed, and whether the restore goroutine beats the 5-minute deadline.
Returns the error result of `LoadFromMinIO` (`none` = nil) together with
the store after the call. -/
def loadFromMinio (bucketExists : Bool)
    (minioB localB : Option BackupMetadata)
    (fetch : BackupMetadata → Except String BackupData)
    (okA : Algorithm → Bool) (okP : PresetData → Bool) (now : Int)
    (finishesInTime : Bool) (st : DBState) : Option String × DBState :=
  match getDatabaseMetadata st with
  | none =>
    -- metadata unreadable: database may be corrupted or uninitialized
    match attemptRestore bucketExists minioB localB fetch okA okP now
        finishesInTime st with
    | .error e => (some ("failed to restore database: " ++ e), st)
    | .ok st' => (none, st')
  | some currentMeta =>
    if currentMeta.recordCount = 0 then
      match minioB, localB with
      | none, none => (none, st)   -- first startup: keep the empty database
      | _, _ =>
        -- backups available: `return m.attemptRestore(ctx)`
        match attemptRestore bucketExists minioB localB fetch okA okP now
            finishesInTime st with
        | .error e => (some e, st)
        | .ok st' => (none, st')
    else
      match minioB, localB with
      | none, none => (none, st)   -- no backups: keep current database
      | _, _ =>
        let sel := selectNewestSource currentMeta minioB localB
        if sel.newestSource = "current" then (none, st)
        else
          match sel.newestBackup with
          | none => (none, st)
          | some b =>
            if finishesInTime then
              match restoreFromBackup okA okP now b (fetch b) st with
              | .error _ => (none, st)  -- restore failed: keep current, nil
              | .ok st' => (none, st')
            else (none, st)             -- restore timeout: keep current, nil

/-! ## Version ledger increments (the GORM `VersioningPlugin`) -/

/-- The ledger entry `incrementVersion` builds: the previously read maximum
version plus one, `updated_by = "auto"`, and the current `algorithms` row
count. -/
def incrementEntry (readMax : Int) (now : Int) (algCount : Int) :
    DatabaseMetadata :=
  { version := readMax + 1, lastUpdatedAt := now, updatedBy := "auto"
    checkpointAt := now, recordCount := algCount }

/-- `incrementVersion` run atomically (read the maximum, append max+1) —
the behaviour when a single increment runs alone. -/
def incrementVersion (now : Int) (algCount : Int)
    (ledger : List DatabaseMetadata) : List DatabaseMetadata :=
  ledger ++ [incrementEntry (currentMaxVersion ledger) now algCount]

/-- Interleaving model for two concurrent `go p.incrementVersion()`
goroutines spawned by `afterWrite`: each goroutine first reads the current
maximum version (`Order("version DESC").First`), then appends its new
entry (`Create`).  The scheduler chooses the order of these four database
operations. -/
inductive IncAction where
  | readMax0
  | readMax1
  | writeNew0
  | writeNew1
deriving Repr, DecidableEq

/-- State of the two in-flight increment goroutines: the ledger plus the
max-version value each goroutine has read so far (if it has). -/
structure VersioningState where
  ledger : List DatabaseMetadata
  pending0 : Option Int
  pending1 : Option Int
deriving Repr, DecidableEq

/-- One database operation of an increment goroutine. -/
def incStep (now : Int) (algCount : Int) (s : VersioningState) :
    IncAction → VersioningState
  | .readMax0 => { s with pending0 := some (currentMaxVersion s.ledger) }
  | .readMax1 => { s with pending1 := some (currentMaxVersion s.ledger) }
  | .writeNew0 =>
    match s.pending0 with
    | some v =>
      { s with ledger := s.ledger ++ [incrementEntry v now algCount]
               pending0 := none }
    | none => s
  | .writeNew1 =>
    match s.pending1 with
    | some v =>
      { s with ledger := s.ledger ++ [incrementEntry v now algCount]
               pending1 := none }
    | none => s

/-- Run a schedule of interleaved increment operations. -/
def runIncrements (now : Int) (algCount : Int) (s : VersioningState)
    (sched : List IncAction) : VersioningState :=
  sched.foldl (incStep now algCount) s

/-! ## Backup publisher -/

/-- An object stored in the MinIO bucket. -/
structure RemoteObject where
  key : String
  content : String
deriving Repr, DecidableEq

/-- `minio.PutObject`: overwrite the object at `key` (environment predicate
`putOk` says which uploads succeed; a failed upload leaves the bucket
unchanged). -/
def putObject (putOk : String → Bool) (objects : List RemoteObject)
    (key content : String) : Except String (List RemoteObject) :=
  if putOk key then
    .ok (objects.filter (fun o => o.key != key) ++ [⟨key, content⟩])
  else .error ("put failed: " ++ key)

/-- Read an object back from the bucket. -/
def getRemote (objects : List RemoteObject) (key : String) : Option String :=
  (objects.find? (fun o => o.key == key)).map (·.content)

/-- `backupJSONToMinio` (`sqlite_backup.go:867-891`): upload the snapshot
to the timestamped path, then overwrite `database-backup/latest.json` with
the same content.  Returns the bucket state after whatever uploads went
through, and the error (if any) the function returns. -/
def backupJSONToMinio (putOk : String → Bool) (objects : List RemoteObject)
    (backupJSON : String) (timestamp : String) :
    List RemoteObject × Option String :=
  match putObject putOk objects
      ("database-backup/backup-" ++ timestamp ++ ".json") backupJSON with
  | .error _ => (objects, some "failed to upload backup to MinIO")
  | .ok o1 =>
    match putObject putOk o1 "database-backup/latest.json" backupJSON with
    | .error _ => (o1, some "failed to update latest backup")
    | .ok o2 => (o2, none)

/-- `saveLocalBackup` (`sqlite_backup.go:894-906`): write
`backup-<timestamp>.json` into `./data/backups` (the environment flag
`localWriteOk` says whether the filesystem write succeeds). -/
def saveLocalBackup (localWriteOk : Bool)
    (localFiles : List (String × String)) (data : String)
    (timestamp : String) : Except String (List (String × String)) :=
  if localWriteOk then
    .ok (localFiles ++ [("backup-" ++ timestamp ++ ".json", data)])
  else .error "failed to write backup file"

/-- Remote bucket plus local fallback directory. -/
structure PublishState where
  remote : List RemoteObject
  localFiles : List (String × String)
deriving Repr, DecidableEq

/-- The structured-snapshot phase of `BackupToMinIO`
(`sqlite_backup.go:825-840`): try MinIO first; only when that fails
(`!minioSuccess`) write the local fallback copy, and only if both fail
return an error.  The returned `Bool` is `minioSuccess`. -/
def backupToMinioJson (putOk : String → Bool) (localWriteOk : Bool)
    (ps : PublishState) (backupJSON : String) (timestamp : String) :
    Except String (PublishState × Bool) :=
  match backupJSONToMinio putOk ps.remote backupJSON timestamp with
  | (remote2, none) => .ok ({ ps with remote := remote2 }, true)
  | (remote2, some _) =>
    match saveLocalBackup localWriteOk ps.localFiles backupJSON timestamp with
    | .ok lf2 => .ok ({ remote := remote2, localFiles := lf2 }, false)
    | .error e => .error ("both MinIO and local JSON backup failed: " ++ e)

/-! ## Retention pruning -/

/-- The backup artefacts subject to pruning: the keys in the MinIO bucket
and the file names in the local `./data/backups` directory. -/
structure BackupFiles where
  remoteKeys : List String
  localJson : List String
  localDb : List String
deriving Repr, DecidableEq

/-- One local cleanup pass (`sort.Strings(files)` then delete
`files[:len(files)-keep]`): the surviving files are the `keep`
lexicographically largest ones (file names embed `YYYYMMDD-HHMMSS`
timestamps, so lexicographic = chronological).  The result is returned in
sorted order; the directory itself is an unordered set of files. -/
def cleanupLocalList (keep : Nat) (files : List String) : List String :=
  if keep < (files.insertionSort (· ≤ ·)).length then
    (files.insertionSort (· ≤ ·)).drop
      ((files.insertionSort (· ≤ ·)).length - keep)
  else files.insertionSort (· ≤ ·)

/-- `cleanupLocalBackups` (`sqlite_backup.go:986-1018`): keep the newest 5
local JSON snapshots and the newest 3 local raw file copies. -/
def cleanupLocalBackups (b : BackupFiles) : BackupFiles :=
  { b with localJson := cleanupLocalList 5 b.localJson
           localDb := cleanupLocalList 3 b.localDb }

/-- `cleanupOldBackups` (`sqlite_backup.go:931-960`).  The entire MinIO
pruning section of the function body is commented out in the source, so the
function only runs the local cleanup and never removes any remote
object. -/
def cleanupOldBackups (b : BackupFiles) : BackupFiles :=
  cleanupLocalBackups b

/-- `listBackupsByPrefix` (`sqlite_backup.go:963-983`): bucket keys
starting with the given string, the `latest`/`final-backup` pointer objects
excluded, sorted ascending.  (Only called from the commented-out pruning
section.) -/
def listBackupKeys (keys : List String) (pfx : String) : List String :=
  ((keys.filter (fun k => k.startsWith pfx)).filter
    (fun k => k != "database-backup/latest.json" &&
              k != "database-backup/latest.db" &&
              k != "database-backup/final-backup.db")).insertionSort (· ≤ ·)

/-! ## Store provider open path -/

/-- The verification tail of `optimizeDatabase` (`sqlite.go:634-641`):
after applying the PRAGMAs (whose individual errors are ignored), re-read
`PRAGMA journal_mode` and fail with a descriptive error if it is not
`"wal"`. -/
def optimizeDatabase (journalMode : String) : Except String Unit :=
  if journalMode ≠ "wal" then
    .error ("WAL mode not enabled, got: " ++ journalMode)
  else .ok ()

/-- `Open` (`sqlite.go:555-588`): open the database, then run
`optimizeDatabase`; a failure there is wrapped and returned, so no handle
is produced. -/
def openSQLite (gormOpenOk : Bool) (journalMode : String) :
    Except String Unit :=
  if gormOpenOk = false then .error "failed to open SQLite database"
  else
    match optimizeDatabase journalMode with
    | .error e => .error ("failed to optimize database: " ++ e)
    | .ok _ => .ok ()

/-! ## Concrete scenario data -/

/-- `n` distinct rows for the `algorithms` table. -/
def algRows (n : Nat) : List Algorithm :=
  (List.range n).map (fun i => { id := toString i })

/-- Current database of the newest-wins scenario:
version 3, 10 records. -/
def curMeta1 : BackupMetadata := ⟨0, "", "current", "", 3, 10, 100⟩

/-- MinIO backup of the newest-wins scenario: version 7, 15 records. -/
def minioMeta1 : BackupMetadata :=
  ⟨500, "h1", "minio", "database-backup/latest.json", 7, 15, 300⟩

/-- Local backup of the newest-wins scenario: version 5, 12 records. -/
def localMeta1 : BackupMetadata :=
  ⟨400, "h2", "local", "./data/backups/backup-x.json", 5, 12, 200⟩

/-- Contents of the MinIO backup of the newest-wins scenario. -/
def bd1 : BackupData :=
  { algorithms := algRows 15, versions := [], presetData := [], jobs := []
    metaVersion := 7, metaRecordCount := 15, metaLastUpdatedAt := 300 }

/-- Store of the newest-wins scenario: one ledger entry at version 3 and
10 algorithm rows. -/
def st1 : DBState :=
  { metadataTable := some [⟨3, 100, "api", 0, 10⟩]
    algorithmsTable := some (algRows 10)
    versionsTable := [], jobsTable := [], presetDataTable := [] }

/-! ## Properties of the newest-source scan -/

/-- `considerBackup` never makes the running maximum smaller: any
candidate already dominated stays dominated. -/
theorem considerBackup_not_newer (name : String)
    (b? : Option BackupMetadata) (s : SelState) (x y : Int)
    (hx : ¬ lexNewer x y s.newestVersion s.newestTime) :
    ¬ lexNewer x y (considerBackup name b? s).newestVersion
      (considerBackup name b? s).newestTime := by
  cases b? with
  | none => simpa [considerBackup] using hx
  | some b =>
    by_cases h : lexNewer b.version b.lastUpdatedAt s.newestVersion s.newestTime
    · simp only [considerBackup, if_pos h]
      unfold lexNewer at hx h ⊢
      omega
    · simpa [considerBackup, if_neg h] using hx

/-- After a backup is considered, it does not beat the running maximum. -/
theorem considerBackup_self (name : String) (b : BackupMetadata)
    (s : SelState) :
    ¬ lexNewer b.version b.lastUpdatedAt
      (considerBackup name (some b) s).newestVersion
      (considerBackup name (some b) s).newestTime := by
  by_cases h : lexNewer b.version b.lastUpdatedAt s.newestVersion s.newestTime
  · simp only [considerBackup, if_pos h]
    unfold lexNewer
    omega
  · simpa [considerBackup, if_neg h] using h

/-- `considerBackup` either keeps the running state or switches to the
considered backup. -/
theorem considerBackup_cases (name : String)
    (b? : Option BackupMetadata) (s : SelState) :
    considerBackup name b? s = s ∨
    ∃ b, b? = some b ∧ considerBackup name b? s =
      { newestSource := name, newestVersion := b.version
        newestTime := b.lastUpdatedAt, newestBackup := some b } := by
  cases b? with
  | none => exact Or.inl rfl
  | some b =>
    by_cases h : lexNewer b.version b.lastUpdatedAt s.newestVersion s.newestTime
    · exact Or.inr ⟨b, rfl, by simp only [considerBackup, if_pos h]⟩
    · exact Or.inl (by simp only [considerBackup, if_neg h])

/-- C1: on the `record_count > 0` startup path the selected source is a
maximum of {current, remote, local} under the (version, then
last_updated_at) order — it dominates every candidate and is one of them —
and in the concrete scenario current `(v=3, 10 records)`, remote
`(v=7, 15 records)`, local `(v=5, 12 records)` the remote backup wins and
the post-restore ledger entry with the highest version is
`(version=7, record_count=15)`. -/
theorem C1_newest_wins_selection (cur : BackupMetadata)
    (minioB localB : Option BackupMetadata)
    (hrec : cur.recordCount > 0) :
    ((¬ lexNewer cur.version cur.lastUpdatedAt
        (selectNewestSource cur minioB localB).newestVersion
        (selectNewestSource cur minioB localB).newestTime) ∧
     (∀ b, minioB = some b →
        ¬ lexNewer b.version b.lastUpdatedAt
          (selectNewestSource cur minioB localB).newestVersion
          (selectNewestSource cur minioB localB).newestTime) ∧
     (∀ b, localB = some b →
        ¬ lexNewer b.version b.lastUpdatedAt
          (selectNewestSource cur minioB localB).newestVersion
          (selectNewestSource cur minioB localB).newestTime) ∧
     ((selectNewestSource cur minioB localB).newestSource = "current" ∧
        (selectNewestSource cur minioB localB).newestVersion = cur.version ∧
        (selectNewestSource cur minioB localB).newestTime = cur.lastUpdatedAt ∧
        (selectNewestSource cur minioB localB).newestBackup = none ∨
      (∃ b, minioB = some b ∧
        (selectNewestSource cur minioB localB).newestSource = "minio" ∧
        (selectNewestSource cur minioB localB).newestVersion = b.version ∧
        (selectNewestSource cur minioB localB).newestTime = b.lastUpdatedAt ∧
        (selectNewestSource cur minioB localB).newestBackup = some b) ∨
      (∃ b, localB = some b ∧
        (selectNewestSource cur minioB localB).newestSource = "local" ∧
        (selectNewestSource cur minioB localB).newestVersion = b.version ∧
        (selectNewestSource cur minioB localB).newestTime = b.lastUpdatedAt ∧
        (selectNewestSource cur minioB localB).newestBackup = some b))) ∧
    (getDatabaseMetadata st1 = some curMeta1 ∧
     (selectNewestSource curMeta1 (some minioMeta1)
        (some localMeta1)).newestSource = "minio" ∧
     (selectNewestSource curMeta1 (some minioMeta1)
        (some localMeta1)).newestBackup = some minioMeta1 ∧
     (loadFromMinio true (some minioMeta1) (some localMeta1)
        (fun _ => .ok bd1) (fun _ => true) (fun _ => true) 999 true st1).1
        = none ∧
     ((loadFromMinio true (some minioMeta1) (some localMeta1)
        (fun _ => .ok bd1) (fun _ => true) (fun _ => true) 999 true
        st1).2.metadataTable.bind latestLedgerEntry) =
       some { version := 7, lastUpdatedAt := 300
              updatedBy := "backup_restore", checkpointAt := 999
              recordCount := 15 }) := by
  constructor
  · set s0 : SelState :=
      { newestSource := "current", newestVersion := cur.version
        newestTime := cur.lastUpdatedAt, newestBackup := none } with hs0
    have hsel : selectNewestSource cur minioB localB =
        considerBackup "local" localB (considerBackup "minio" minioB s0) := rfl
    refine ⟨?_, ?_, ?_, ?_⟩
    · rw [hsel]
      refine considerBackup_not_newer _ _ _ _ _ ?_
      refine considerBackup_not_newer _ _ _ _ _ ?_
      simp only [hs0]
      unfold lexNewer
      omega
    · rintro b rfl
      rw [hsel]
      exact considerBackup_not_newer _ _ _ _ _ (considerBackup_self _ _ _)
    · rintro b rfl
      rw [hsel]
      exact considerBackup_self _ _ _
    · rw [hsel]
      rcases considerBackup_cases "local" localB
          (considerBackup "minio" minioB s0) with h2 | ⟨b, hb, h2⟩
      · rw [h2]
        rcases considerBackup_cases "minio" minioB s0 with h1 | ⟨b, hb, h1⟩
        · rw [h1, hs0]
          exact Or.inl ⟨rfl, rfl, rfl, rfl⟩
        · rw [h1]
          exact Or.inr (Or.inl ⟨b, hb, rfl, rfl, rfl, rfl⟩)
      · rw [h2]
        exact Or.inr (Or.inr ⟨b, hb, rfl, rfl, rfl, rfl⟩)
  · exact ⟨by decide, by decide, by decide, by decide, by decide⟩

/-- Witness for C1 at the scenario of the claim. -/
theorem C1_newest_wins_selection_witness :
    curMeta1.recordCount > 0 ∧
    (selectNewestSource curMeta1 (some minioMeta1)
      (some localMeta1)).newestSource = "minio" :=
  ⟨by decide,
   (C1_newest_wins_selection curMeta1 (some minioMeta1) (some localMeta1)
     (by decide)).2.2.1⟩

/-! ## Timeout behaviour of the reconciler -/

/-- On the degraded paths, a restore that misses the deadline makes
`attemptRestore` return an error (never a mutated store). -/
theorem attemptRestore_timeout (bucketExists : Bool)
    (minioB localB : Option BackupMetadata)
    (fetch : BackupMetadata → Except String BackupData)
    (okA : Algorithm → Bool) (okP : PresetData → Bool) (now : Int)
    (st : DBState) :
    ∃ e, attemptRestore bucketExists minioB localB fetch okA okP now false st
      = .error e := by
  unfold attemptRestore
  by_cases hb : bucketExists = false
  · rw [if_pos hb]
    exact ⟨_, rfl⟩
  · rw [if_neg hb]
    cases pickRestoreBackup minioB localB with
    | none => exact ⟨_, rfl⟩
    | some b => exact ⟨"restore timeout exceeded 5 minutes", by simp⟩

/-- An empty-but-initialised store with no rows anywhere. -/
def stEmpty : DBState :=
  { metadataTable := some [], algorithmsTable := some []
    versionsTable := [], jobsTable := [], presetDataTable := [] }

/-- Counterexample to C2 as stated: on the empty-store path
(`record_count == 0` with a backup available), a restore that misses the
5-minute deadline makes `LoadFromMinIO` return the timeout *error*, not
success — `attemptRestore`'s timeout error is propagated
(`return m.attemptRestore(ctx)`), unlike on the has-data path. -/
theorem C2_timeout_error_on_empty_path :
    (loadFromMinio true (some minioMeta1) none (fun _ => .ok bd1)
      (fun _ => true) (fun _ => true) 999 false stEmpty).1 =
      some "restore timeout exceeded 5 minutes" ∧
    (loadFromMinio true (some minioMeta1) none (fun _ => .ok bd1)
      (fun _ => true) (fun _ => true) 999 false stEmpty).2 = stEmpty := by
  constructor
  · decide
  · decide

/-- C2 (amended): whenever the restore misses the reconciliation deadline,
the store after `LoadFromMinIO` equals the store before it on every path
(no table is partially cleared or reloaded), and on the normal path — the
current store has readable metadata with `record_count > 0` — the entry
point also returns success (`nil`).  (On the empty/corrupted paths the
timeout surfaces as an error, which the startup caller only logs, so the
service still starts.) -/
theorem C2_timeout_keeps_store (bucketExists : Bool)
    (minioB localB : Option BackupMetadata)
    (fetch : BackupMetadata → Except String BackupData)
    (okA : Algorithm → Bool) (okP : PresetData → Bool) (now : Int)
    (st : DBState) :
    (loadFromMinio bucketExists minioB localB fetch okA okP now false st).2
      = st ∧
    (∀ cur, getDatabaseMetadata st = some cur → cur.recordCount ≠ 0 →
      loadFromMinio bucketExists minioB localB fetch okA okP now false st
        = (none, st)) := by
  obtain ⟨e, he⟩ := attemptRestore_timeout bucketExists minioB localB fetch
    okA okP now st
  have hasdata : ∀ cur, getDatabaseMetadata st = some cur →
      cur.recordCount ≠ 0 →
      loadFromMinio bucketExists minioB localB fetch okA okP now false st
        = (none, st) := by
    intro cur hm h0
    unfold loadFromMinio
    rw [hm]
    dsimp only
    rw [if_neg h0]
    cases minioB <;> cases localB <;> dsimp only
    all_goals
      first
      | rfl
      | (split
         · rfl
         · split
           · rfl
           · simp)
  refine ⟨?_, hasdata⟩
  cases hm : getDatabaseMetadata st with
  | none =>
    unfold loadFromMinio
    rw [hm]
    dsimp only
    rw [he]
  | some cur =>
    by_cases h0 : cur.recordCount = 0
    · unfold loadFromMinio
      rw [hm]
      dsimp only
      rw [if_pos h0]
      cases minioB <;> cases localB <;> dsimp only
      all_goals first | rfl | rw [he]
    · rw [hasdata cur hm h0]

/-- Witness for C2 (amended): on the has-data scenario a timed-out restore
leaves the store untouched and `LoadFromMinIO` returns success. -/
theorem C2_timeout_keeps_store_witness :
    loadFromMinio true (some minioMeta1) (some localMeta1)
      (fun _ => .ok bd1) (fun _ => true) (fun _ => true) 999 false st1
      = (none, st1) :=
  (C2_timeout_keeps_store true (some minioMeta1) (some localMeta1)
    (fun _ => .ok bd1) (fun _ => true) (fun _ => true) 999 st1).2
    curMeta1 (by decide) (by decide)

/-! ## Which tables the restore transaction touches -/

/-- Store with data in all four managed tables. -/
def stC3 : DBState :=
  { metadataTable := some []
    algorithmsTable := some [⟨"a0"⟩]
    versionsTable := [⟨"v0"⟩]
    jobsTable := [⟨"j0"⟩]
    presetDataTable := [⟨"p0"⟩] }

/-- Backup metadata for the table-coverage scenario. -/
def bMetaC3 : BackupMetadata :=
  ⟨600, "h3", "minio", "database-backup/latest.json", 2, 1, 50⟩

/-- Snapshot with one row in each of the four tables, all different from
the current store's rows. -/
def bdC3 : BackupData :=
  { algorithms := [⟨"a1"⟩], versions := [⟨"v1"⟩]
    presetData := [⟨"p1"⟩], jobs := [⟨"j1"⟩]
    metaVersion := 2, metaRecordCount := 1, metaLastUpdatedAt := 50 }

/-- The store the engine actually produces in the table-coverage scenario:
the snapshot's `versions` and `jobs` rows were *not* loaded, the old ones
were *not* deleted. -/
def restoredC3 : DBState :=
  { metadataTable := some [restoreEntry bMetaC3 999]
    algorithmsTable := some [⟨"a1"⟩]
    versionsTable := [⟨"v0"⟩]
    jobsTable := [⟨"j0"⟩]
    presetDataTable := [⟨"p1"⟩] }

/-- Counterexample to C3 as stated: the restore transaction does not
delete or reload the `versions` and `jobs` tables — after a committed
restore they still hold the pre-restore rows instead of the snapshot's
rows, although the snapshot contains both tables. -/
theorem C3_versions_jobs_not_restored :
    restoreFromBackup (fun _ => true) (fun _ => true) 999 bMetaC3
      (.ok bdC3) stC3 = .ok restoredC3 ∧
    restoredC3.versionsTable ≠ bdC3.versions ∧
    restoredC3.jobsTable ≠ bdC3.jobs ∧
    restoredC3.versionsTable = stC3.versionsTable ∧
    restoredC3.jobsTable = stC3.jobsTable := by
  refine ⟨by rfl, by decide, by decide, by decide, by decide⟩

/-- C3 (amended): a committed restore transaction deletes all rows from
the `algorithms` and `preset_data` tables only and bulk-inserts the
snapshot's algorithm and preset-data rows (the ones whose insert
succeeds); the `versions` and `jobs` tables are left exactly as they
were. -/
theorem C3_restore_clears_and_reloads (okA : Algorithm → Bool)
    (okP : PresetData → Bool) (now : Int) (meta : BackupMetadata)
    (bd : BackupData) (st st' : DBState)
    (h : restoreFromBackup okA okP now meta (.ok bd) st = .ok st') :
    st'.algorithmsTable = some (bd.algorithms.filter okA) ∧
    st'.presetDataTable = bd.presetData.filter okP ∧
    st'.versionsTable = st.versionsTable ∧
    st'.jobsTable = st.jobsTable := by
  unfold restoreFromBackup at h
  cases halg : st.algorithmsTable with
  | none => rw [halg] at h; exact absurd h (by simp)
  | some l =>
    rw [halg] at h
    simp only [Except.ok.injEq] at h
    subst h
    exact ⟨rfl, rfl, rfl, rfl⟩

/-- Witness for C3 (amended) at the table-coverage scenario. -/
theorem C3_restore_clears_and_reloads_witness :
    restoredC3.algorithmsTable = some (bdC3.algorithms.filter (fun _ => true)) ∧
    restoredC3.presetDataTable = bdC3.presetData.filter (fun _ => true) ∧
    restoredC3.versionsTable = stC3.versionsTable ∧
    restoredC3.jobsTable = stC3.jobsTable :=
  C3_restore_clears_and_reloads (fun _ => true) (fun _ => true) 999 bMetaC3
    bdC3 stC3 restoredC3 (by rfl)

/-! ## The post-restore ledger entry -/

/-- Store for the partial-restore scenario: ledger at version 1, two
algorithm rows. -/
def stC10 : DBState :=
  { metadataTable := some [⟨1, 10, "api", 0, 2⟩]
    algorithmsTable := some [⟨"a0"⟩, ⟨"b0"⟩]
    versionsTable := [], jobsTable := [], presetDataTable := [] }

/-- Backup metadata declaring `record_count = 2` at version 4. -/
def bMetaC10 : BackupMetadata :=
  ⟨600, "h4", "minio", "database-backup/latest.json", 4, 2, 400⟩

/-- Snapshot with two algorithm rows, one of which will fail to insert. -/
def bdC10 : BackupData :=
  { algorithms := [⟨"a1"⟩, ⟨"bad"⟩], versions := [], presetData := []
    jobs := [], metaVersion := 4, metaRecordCount := 2
    metaLastUpdatedAt := 400 }

/-- C10: after a committed restore — also one where rows were skipped —
the appended ledger entry copies the backup's declared metadata
(`version`, `record_count`, `last_updated_at`) verbatim, so its
`record_count` is the backup's declared count, not a re-count of the rows
actually present; concretely, with one of two rows failing to insert the
restore still succeeds and the newest ledger entry says `record_count = 2`
while the table holds 1 row. -/
theorem C10_ledger_entry_uses_declared_count (okA : Algorithm → Bool)
    (okP : PresetData → Bool) (now : Int) (meta : BackupMetadata)
    (bd : BackupData) (st st' : DBState)
    (ledger : List DatabaseMetadata)
    (h : restoreFromBackup okA okP now meta (.ok bd) st = .ok st')
    (hl : st.metadataTable = some ledger) :
    (st'.metadataTable = some (ledger ++ [restoreEntry meta now]) ∧
     (restoreEntry meta now).recordCount = meta.recordCount ∧
     (restoreEntry meta now).version = meta.version) ∧
    (restoreFromBackup (fun a => a.id != "bad") (fun _ => true) 999
        bMetaC10 (.ok bdC10) stC10 =
      .ok { metadataTable :=
              some [⟨1, 10, "api", 0, 2⟩, restoreEntry bMetaC10 999]
            algorithmsTable := some [⟨"a1"⟩]
            versionsTable := [], jobsTable := [], presetDataTable := [] } ∧
     (latestLedgerEntry
        [⟨1, 10, "api", 0, 2⟩, restoreEntry bMetaC10 999]).map
        (·.recordCount) = some 2 ∧
     ([Algorithm.mk "a1"].length : Int) ≠ 2) := by
  constructor
  · unfold restoreFromBackup at h
    cases halg : st.algorithmsTable with
    | none => rw [halg] at h; exact absurd h (by simp)
    | some l =>
      rw [halg] at h
      simp only [Except.ok.injEq] at h
      subst h
      simp only [hl, Option.map_some]
      exact ⟨rfl, rfl, rfl⟩
  · exact ⟨by rfl, by decide, by decide⟩

/-- Witness for C10 at the partial-restore scenario. -/
theorem C10_ledger_entry_uses_declared_count_witness :
    ({ metadataTable :=
         some [⟨1, 10, "api", 0, 2⟩, restoreEntry bMetaC10 999]
       algorithmsTable := some [⟨"a1"⟩]
       versionsTable := [], jobsTable := []
       presetDataTable := [] } : DBState).metadataTable =
      some ([⟨1, 10, "api", 0, 2⟩] ++ [restoreEntry bMetaC10 999]) :=
  ((C10_ledger_entry_uses_declared_count (fun a => a.id != "bad")
    (fun _ => true) 999 bMetaC10 bdC10 stC10 _ [⟨1, 10, "api", 0, 2⟩]
    (by rfl) rfl).1).1

/-! ## The versioning race -/

/-- C4 (demonstrating the code bug): `afterWrite` launches
`incrementVersion` as an unsynchronised goroutine per mutation.  When the
goroutines of two concurrent writes interleave as read/read/write/write,
both read maximum 0 and both append version 1: the final ledger holds a
duplicate version and skips version 2 — violating the claimed
no-duplicate/no-skip invariant, which only a serialized execution of the
same two increments satisfies. -/
theorem C4_concurrent_increments_assign_duplicate :
    (runIncrements 100 2 ⟨[], none, none⟩
      [.readMax0, .readMax1, .writeNew0, .writeNew1]).ledger.map (·.version)
      = [1, 1] ∧
    ¬ ((runIncrements 100 2 ⟨[], none, none⟩
      [.readMax0, .readMax1, .writeNew0, .writeNew1]).ledger.map
        (·.version)).Nodup ∧
    (runIncrements 100 2 ⟨[], none, none⟩
      [.readMax0, .writeNew0, .readMax1, .writeNew1]).ledger.map (·.version)
      = [1, 2] := by
  refine ⟨by decide, by decide, by decide⟩

/-! ## Retention pruning -/

/-- Eleven timestamped remote structured snapshots. -/
def remoteKeys11 : List String :=
  (List.range 11).map
    (fun i => "database-backup/backup-2024010" ++ toString i ++ ".json")

/-- Counterexample to C5 as stated: the MinIO pruning half of
`cleanupOldBackups` is commented out, so after a cleanup pass with 11
timestamped remote structured snapshots in the bucket all 11 remain —
more than the claimed retention bound of 10. -/
theorem C5_remote_backups_not_pruned :
    (cleanupOldBackups ⟨remoteKeys11, [], []⟩).remoteKeys = remoteKeys11 ∧
    remoteKeys11.length = 11 :=
  ⟨rfl, by decide⟩

/-- In a sorted list, everything in the dropped head is ≤ everything in
the kept tail. -/
theorem sorted_take_le_drop {l : List String}
    (h : l.Sorted (· ≤ ·)) (k : Nat) {x y : String}
    (hx : x ∈ l.take k) (hy : y ∈ l.drop k) : x ≤ y := by
  have h2 : List.Pairwise (· ≤ ·) (l.take k ++ l.drop k) := by
    rw [List.take_append_drop]
    exact h
  exact (List.pairwise_append.mp h2).2.2 x hx y hy

/-- One local cleanup pass keeps exactly `min n keep` of the `n` files:
all `n` when the directory holds at most `keep`, and exactly the `keep`
newest otherwise — so a pass over an overfull directory really deletes
the `n - keep` oldest files. -/
theorem cleanupLocalList_spec (keep : Nat) (files : List String) :
    (cleanupLocalList keep files).length = min files.length keep := by
  unfold cleanupLocalList
  by_cases h : keep < (files.insertionSort (· ≤ ·)).length
  · rw [if_pos h, List.length_drop, List.length_insertionSort]
    rw [List.length_insertionSort] at h
    omega
  · rw [if_neg h, List.length_insertionSort]
    rw [List.length_insertionSort] at h
    omega

/-- Membership in a cleanup survivor list implies membership in the
original directory listing. -/
theorem cleanupLocalList_subset (keep : Nat) (files : List String) :
    ∀ f ∈ cleanupLocalList keep files, f ∈ files := by
  intro f hf
  unfold cleanupLocalList at hf
  split at hf
  · exact (List.perm_insertionSort (· ≤ ·) files).mem_iff.mp
      (List.mem_of_mem_drop hf)
  · exact (List.perm_insertionSort (· ≤ ·) files).mem_iff.mp hf

/-- Survivors of a cleanup pass are not older (lexicographically not
smaller) than any deleted file. -/
theorem cleanupLocalList_newest (keep : Nat) (files : List String) :
    ∀ g ∈ files, g ∉ cleanupLocalList keep files →
      ∀ f ∈ cleanupLocalList keep files, g ≤ f := by
  intro g hg hgd f hf
  unfold cleanupLocalList at hgd hf
  split_ifs at hgd hf with hkeep
  · have hsort : (files.insertionSort (· ≤ ·)).Sorted (· ≤ ·) :=
      List.sorted_insertionSort (· ≤ ·) files
    have hgs : g ∈ files.insertionSort (· ≤ ·) :=
      (List.perm_insertionSort (· ≤ ·) files).mem_iff.mpr hg
    have hsplit : g ∈ (files.insertionSort (· ≤ ·)).take
          ((files.insertionSort (· ≤ ·)).length - keep) ++
        (files.insertionSort (· ≤ ·)).drop
          ((files.insertionSort (· ≤ ·)).length - keep) := by
      rw [List.take_append_drop]
      exact hgs
    have hgtake : g ∈ (files.insertionSort (· ≤ ·)).take
        ((files.insertionSort (· ≤ ·)).length - keep) := by
      rcases List.mem_append.mp hsplit with h | h
      · exact h
      · exact absurd h hgd
    exact sorted_take_le_drop hsort _ hgtake hf
  · exact absurd ((List.perm_insertionSort (· ≤ ·) files).mem_iff.mpr hg) hgd

/-- C5 (amended): a backup cycle's pruning pass never deletes any remote
object (the MinIO pruning code is disabled in the source); locally it
keeps at most the 5 newest structured snapshots and the 3 newest raw file
copies — every survivor is an original file not older than any deleted
file — deleting the older ones.  The remote "latest" pointers are
untouched along with everything else remote. -/
theorem C5_pruning_only_local (b : BackupFiles) :
    (cleanupOldBackups b).remoteKeys = b.remoteKeys ∧
    (cleanupOldBackups b).localJson.length = min b.localJson.length 5 ∧
    (cleanupOldBackups b).localDb.length = min b.localDb.length 3 ∧
    (∀ f ∈ (cleanupOldBackups b).localJson, f ∈ b.localJson) ∧
    (∀ f ∈ (cleanupOldBackups b).localDb, f ∈ b.localDb) ∧
    (∀ g ∈ b.localJson, g ∉ (cleanupOldBackups b).localJson →
      ∀ f ∈ (cleanupOldBackups b).localJson, g ≤ f) ∧
    (∀ g ∈ b.localDb, g ∉ (cleanupOldBackups b).localDb →
      ∀ f ∈ (cleanupOldBackups b).localDb, g ≤ f) := by
  unfold cleanupOldBackups cleanupLocalBackups
  dsimp only
  exact ⟨rfl, cleanupLocalList_spec 5 b.localJson,
    cleanupLocalList_spec 3 b.localDb,
    cleanupLocalList_subset 5 b.localJson,
    cleanupLocalList_subset 3 b.localDb,
    cleanupLocalList_newest 5 b.localJson,
    cleanupLocalList_newest 3 b.localDb⟩

/-- Witness for C5 (amended) on a concrete overfull directory: of 6 local
JSON snapshots exactly 5 survive the pass, while the 11 remote snapshots
are untouched. -/
theorem C5_pruning_only_local_witness :
    (cleanupOldBackups ⟨remoteKeys11, ["backup-1.json", "backup-2.json",
        "backup-3.json", "backup-4.json", "backup-5.json",
        "backup-6.json"], ["db-backup-1.db"]⟩).remoteKeys = remoteKeys11 ∧
    (cleanupOldBackups ⟨remoteKeys11, ["backup-1.json", "backup-2.json",
        "backup-3.json", "backup-4.json", "backup-5.json",
        "backup-6.json"], ["db-backup-1.db"]⟩).localJson.length = 5 ∧
    (cleanupOldBackups ⟨remoteKeys11, ["backup-1.json", "backup-2.json",
        "backup-3.json", "backup-4.json", "backup-5.json",
        "backup-6.json"], ["db-backup-1.db"]⟩).localDb.length = 1 :=
  ⟨(C5_pruning_only_local _).1, (C5_pruning_only_local _).2.1,
   (C5_pruning_only_local _).2.2.1⟩

/-! ## Backup publication -/

/-- The timestamped backup path is never the "latest" pointer path
(their lengths already differ for every timestamp). -/
theorem backupPath_ne_latest (ts : String) :
    ("database-backup/backup-" ++ ts ++ ".json") ≠
      "database-backup/latest.json" := by
  intro h
  have hlen := congrArg String.length h
  rw [String.length_append, String.length_append] at hlen
  have h1 : "database-backup/backup-".length = 23 := rfl
  have h2 : ".json".length = 5 := rfl
  have h3 : "database-backup/latest.json".length = 27 := rfl
  omega

/-- A `PutObject` whose upload succeeds replaces the object at `key`. -/
theorem putObject_ok (putOk : String → Bool) (objects : List RemoteObject)
    (key content : String) (h : putOk key = true) :
    putObject putOk objects key content =
      .ok (objects.filter (fun o => o.key != key) ++ [⟨key, content⟩]) := by
  unfold putObject
  rw [if_pos h]

/-- Searching for a key other than the one just filtered away is
unaffected by the filtering. -/
theorem find?_filter_ne (objects : List RemoteObject) (key k : String)
    (hne : k ≠ key) :
    (objects.filter (fun o => o.key != key)).find? (fun o => o.key == k) =
      objects.find? (fun o => o.key == k) := by
  induction objects with
  | nil => rfl
  | cons o os ih =>
    by_cases hq : (o.key != key) = true
    · rw [List.filter_cons_of_pos (p := fun x : RemoteObject =>
          x.key != key) hq]
      by_cases hp : (o.key == k) = true
      · rw [List.find?_cons_of_pos (p := fun x : RemoteObject =>
            x.key == k) _ hp,
          List.find?_cons_of_pos (p := fun x : RemoteObject =>
            x.key == k) _ hp]
      · rw [List.find?_cons_of_neg (p := fun x : RemoteObject =>
            x.key == k) _ (by simpa using hp),
          List.find?_cons_of_neg (p := fun x : RemoteObject =>
            x.key == k) _ (by simpa using hp)]
        exact ih
    · have hko : o.key = key := by simpa using hq
      rw [List.filter_cons_of_neg (p := fun x : RemoteObject =>
          x.key != key) (by simpa using hq),
        List.find?_cons_of_neg (p := fun x : RemoteObject =>
          x.key == k) _ (by simp [hko, Ne.symm hne])]
      exact ih

/-- After a successful `PutObject`, reading the key back yields the
uploaded content. -/
theorem getRemote_putObject_self (putOk : String → Bool)
    (objects : List RemoteObject) (key content : String)
    (h : putOk key = true) (o2 : List RemoteObject)
    (h2 : putObject putOk objects key content = .ok o2) :
    getRemote o2 key = some content := by
  rw [putObject_ok putOk objects key content h] at h2
  simp only [Except.ok.injEq] at h2
  subst h2
  unfold getRemote
  have hnone : (objects.filter (fun o => o.key != key)).find?
      (fun o => o.key == key) = none := by
    rw [List.find?_eq_none]
    intro x hx
    have hq := (List.mem_filter.mp hx).2
    simp_all
  rw [List.find?_append, hnone]
  simp [List.find?]

/-- A successful `PutObject` does not disturb any other key. -/
theorem getRemote_putObject_other (putOk : String → Bool)
    (objects : List RemoteObject) (key content k : String)
    (hne : k ≠ key) (o2 : List RemoteObject)
    (h2 : putObject putOk objects key content = .ok o2) :
    getRemote o2 k = getRemote objects k := by
  by_cases h : putOk key = true
  · rw [putObject_ok putOk objects key content h] at h2
    simp only [Except.ok.injEq] at h2
    subst h2
    unfold getRemote
    have hkk : (key == k) = false := by
      simp [Ne.symm hne]
    have hlast : List.find? (fun o => o.key == k)
        [(⟨key, content⟩ : RemoteObject)] = none := by
      simp [List.find?, hkk]
    rw [List.find?_append, find?_filter_ne objects key k hne, hlast]
    cases objects.find? (fun o => o.key == k) <;> rfl
  · unfold putObject at h2
    rw [if_neg h] at h2
    exact absurd h2 (by simp)

/-- C6: in a backup publication run with a working local filesystem, when
both remote uploads succeed the bucket ends up with the snapshot at the
timestamped path and the same content in the `latest` pointer and no local
fallback copy is produced; when the remote upload fails (either `PutObject`
of the pair), exactly one local fallback copy is written. -/
theorem C6_remote_first_local_fallback (putOk : String → Bool)
    (ps : PublishState) (backupJSON timestamp : String) :
    (putOk ("database-backup/backup-" ++ timestamp ++ ".json") = true →
     putOk "database-backup/latest.json" = true →
     ∃ remote2,
       backupToMinioJson putOk true ps backupJSON timestamp =
         .ok ({ remote := remote2, localFiles := ps.localFiles }, true) ∧
       getRemote remote2 ("database-backup/backup-" ++ timestamp ++ ".json")
         = some backupJSON ∧
       getRemote remote2 "database-backup/latest.json" = some backupJSON) ∧
    ((putOk ("database-backup/backup-" ++ timestamp ++ ".json") = false ∨
      putOk "database-backup/latest.json" = false) →
     ∃ remote2,
       backupToMinioJson putOk true ps backupJSON timestamp =
         .ok ({ remote := remote2
                localFiles := ps.localFiles ++
                  [("backup-" ++ timestamp ++ ".json", backupJSON)] },
              false)) := by
  constructor
  · intro h1 h2
    obtain ⟨o2, ho2⟩ : ∃ o2, putObject putOk ps.remote
        ("database-backup/backup-" ++ timestamp ++ ".json") backupJSON =
        .ok o2 :=
      ⟨_, putObject_ok putOk ps.remote _ backupJSON h1⟩
    obtain ⟨o3, ho3⟩ : ∃ o3, putObject putOk o2
        "database-backup/latest.json" backupJSON = .ok o3 :=
      ⟨_, putObject_ok putOk o2 _ backupJSON h2⟩
    refine ⟨o3, ?_, ?_, ?_⟩
    · unfold backupToMinioJson backupJSONToMinio
      rw [ho2]
      dsimp only
      rw [ho3]
    · rw [getRemote_putObject_other putOk o2 "database-backup/latest.json"
        backupJSON _ (backupPath_ne_latest timestamp) o3 ho3]
      exact getRemote_putObject_self putOk ps.remote _ backupJSON h1 o2 ho2
    · exact getRemote_putObject_self putOk o2 _ backupJSON h2 o3 ho3
  · intro h
    by_cases hp1 :
        putOk ("database-backup/backup-" ++ timestamp ++ ".json") = true
    · have hp2 : putOk "database-backup/latest.json" = false := by
        rcases h with h | h
        · rw [hp1] at h; exact absurd h (by simp)
        · exact h
      obtain ⟨o2, ho2⟩ : ∃ o2, putObject putOk ps.remote
          ("database-backup/backup-" ++ timestamp ++ ".json") backupJSON =
          .ok o2 :=
        ⟨_, putObject_ok putOk ps.remote _ backupJSON hp1⟩
      refine ⟨o2, ?_⟩
      unfold backupToMinioJson backupJSONToMinio saveLocalBackup
      rw [ho2]
      dsimp only
      unfold putObject
      rw [if_neg (by simp [hp2])]
      simp
    · have hput1 : putObject putOk ps.remote
          ("database-backup/backup-" ++ timestamp ++ ".json") backupJSON =
          .error ("put failed: " ++
            ("database-backup/backup-" ++ timestamp ++ ".json")) := by
        unfold putObject
        rw [if_neg hp1]
      refine ⟨ps.remote, ?_⟩
      unfold backupToMinioJson backupJSONToMinio saveLocalBackup
      rw [hput1]
      simp

/-- Witness for C6: with all uploads succeeding, the run publishes
remotely and writes no local copy. -/
theorem C6_remote_first_local_fallback_witness :
    ∃ remote2,
      backupToMinioJson (fun _ => true) true ⟨[], []⟩ "{}" "20240101-000000"
        = .ok ({ remote := remote2, localFiles := [] }, true) ∧
      getRemote remote2
        ("database-backup/backup-" ++ "20240101-000000" ++ ".json")
        = some "{}" ∧
      getRemote remote2 "database-backup/latest.json" = some "{}" :=
  (C6_remote_first_local_fallback (fun _ => true) ⟨[], []⟩ "{}"
    "20240101-000000").1 rfl rfl

/-! ## First run -/

/-- C7: on a first run — the ledger table is missing or empty and the
`algorithms` table is missing or empty, and neither a remote nor a local
backup exists — `getDatabaseMetadata` reports version 0 with 0 records and
`LoadFromMinIO` returns success without restoring anything: the store is
unchanged. -/
theorem C7_first_run (st : DBState)
    (hmeta : st.metadataTable = none ∨ st.metadataTable = some [])
    (halg : st.algorithmsTable = none ∨ st.algorithmsTable = some [])
    (bucketExists : Bool)
    (fetch : BackupMetadata → Except String BackupData)
    (okA : Algorithm → Bool) (okP : PresetData → Bool) (now : Int)
    (finishesInTime : Bool) :
    getDatabaseMetadata st =
      some { timestamp := 0, hash := "", source := "current", path := ""
             version := 0, recordCount := 0, lastUpdatedAt := 0 } ∧
    loadFromMinio bucketExists none none fetch okA okP now finishesInTime st
      = (none, st) := by
  have hget : getDatabaseMetadata st =
      some { timestamp := 0, hash := "", source := "current", path := ""
             version := 0, recordCount := 0, lastUpdatedAt := 0 } := by
    unfold getDatabaseMetadata
    have hbind : st.metadataTable.bind latestLedgerEntry = none := by
      rcases hmeta with h | h <;> rw [h] <;> rfl
    rw [hbind]
    rcases halg with h | h <;> rw [h] <;> rfl
  refine ⟨hget, ?_⟩
  unfold loadFromMinio
  rw [hget]
  dsimp only
  rw [if_pos rfl]

/-- Witness for C7 on the concrete empty store. -/
theorem C7_first_run_witness :
    loadFromMinio true none none (fun _ => .ok bd1) (fun _ => true)
      (fun _ => true) 0 true stEmpty = (none, stEmpty) :=
  (C7_first_run stEmpty (Or.inr rfl) (Or.inr rfl) true (fun _ => .ok bd1)
    (fun _ => true) (fun _ => true) 0 true).2

/-! ## WAL verification on open -/

/-- C8: if the journal mode read back on open is not `wal`, `Open` fails
with an error that names the journal mode actually in effect (the message
ends with it), instead of returning a usable handle. -/
theorem C8_open_fails_without_wal (journalMode : String)
    (h : journalMode ≠ "wal") :
    openSQLite true journalMode =
      .error ("failed to optimize database: " ++
        ("WAL mode not enabled, got: " ++ journalMode)) ∧
    ∃ pre, "failed to optimize database: " ++
        ("WAL mode not enabled, got: " ++ journalMode) = pre ++ journalMode := by
  constructor
  · unfold openSQLite optimizeDatabase
    rw [if_neg (by simp), if_pos h]
  · refine ⟨"failed to optimize database: " ++
      "WAL mode not enabled, got: ", ?_⟩
    rw [String.append_assoc]

/-- Witness for C8 at journal mode `delete`. -/
theorem C8_open_fails_without_wal_witness :
    openSQLite true "delete" =
      .error ("failed to optimize database: " ++
        ("WAL mode not enabled, got: " ++ "delete")) :=
  (C8_open_fails_without_wal "delete" (by decide)).1

/-! ## The degraded restore-source choice -/

/-- MinIO backup of the degraded-path scenario: lower version, later file
timestamp. -/
def mC9 : BackupMetadata :=
  ⟨900, "hm", "minio", "database-backup/latest.json", 2, 4, 80⟩

/-- Local backup of the degraded-path scenario: higher version, earlier
file timestamp. -/
def lC9 : BackupMetadata :=
  ⟨100, "hl", "local", "./data/backups/backup-y.json", 9, 30, 700⟩

/-- A store whose metadata read fails (ledger entry present but the
`algorithms` count query hits a missing table), putting `LoadFromMinIO`
on the degraded `attemptRestore` path. -/
def stCorrupt : DBState :=
  { metadataTable := some [⟨2, 5, "api", 0, 1⟩]
    algorithmsTable := none
    versionsTable := [], jobsTable := [], presetDataTable := [] }

/-- C9: on the degraded path the restore source is chosen solely by the
backups' file timestamps — the strictly later `Timestamp` wins, the
versions are ignored (changing them never changes the choice) — and the
chosen backup is the one `attemptRestore` then restores; concretely a
remote backup with version 2 but a later timestamp beats a local backup
with version 9. -/
theorem C9_degraded_choice_by_timestamp (m l : BackupMetadata) :
    (m.timestamp > l.timestamp →
      pickRestoreBackup (some m) (some l) = some m) ∧
    (¬ m.timestamp > l.timestamp →
      pickRestoreBackup (some m) (some l) = some l) ∧
    (∀ v w : Int,
      pickRestoreBackup (some { m with version := v })
          (some { l with version := w }) =
        if m.timestamp > l.timestamp then some { m with version := v }
        else some { l with version := w }) ∧
    (∀ (fetch : BackupMetadata → Except String BackupData)
      (okA : Algorithm → Bool) (okP : PresetData → Bool) (now : Int)
      (st : DBState) (b : BackupMetadata),
      pickRestoreBackup (some m) (some l) = some b →
      attemptRestore true (some m) (some l) fetch okA okP now true st =
        restoreFromBackup okA okP now b (fetch b) st) ∧
    (pickRestoreBackup (some mC9) (some lC9) = some mC9 ∧
     lC9.version > mC9.version ∧ mC9.timestamp > lC9.timestamp ∧
     getDatabaseMetadata stCorrupt = none) := by
  have heq : pickRestoreBackup (some m) (some l) =
      if m.timestamp > l.timestamp then some m else some l := rfl
  refine ⟨?_, ?_, ?_, ?_, by decide, by decide, by decide, rfl⟩
  · intro h
    rw [heq, if_pos h]
  · intro h
    rw [heq, if_neg h]
  · intro v w
    rfl
  · intro fetch okA okP now st b hb
    have hatt : attemptRestore true (some m) (some l) fetch okA okP now
        true st =
        (if (true : Bool) = false then .error "no backup available" else
          match pickRestoreBackup (some m) (some l) with
          | none => .error "no backup available"
          | some b =>
            if (true : Bool) = true then
              restoreFromBackup okA okP now b (fetch b) st
            else .error "restore timeout exceeded 5 minutes") := rfl
    rw [hatt, hb]
    simp

/-- Witness for C9 at the concrete degraded-path scenario. -/
theorem C9_degraded_choice_by_timestamp_witness :
    pickRestoreBackup (some mC9) (some lC9) = some mC9 :=
  (C9_degraded_choice_by_timestamp mC9 lC9).1 (by decide)

end AlgorithmPlatform
